import Mathlib

/-!
Shallow embedding of `src/git-merger.py`: a CLI utility that fetches a pull
request from a Git forge REST API, counts approving reviews, matches required
status-check labels, and merges the PR when the gate passes.  HTTP traffic is
modelled by a `World` record holding the status code, raw content and decoded
body the server returns for each of the four requests the script can make, and
every effectful function returns the list of requests it issued alongside its
`Except` result.
-/

deriving instance DecidableEq for Except

namespace GitMerger

/-- A review object from GET `{pr}/reviews`; only its `state` field is read. -/
structure Review where
  state : String
deriving DecidableEq

/-- A check object from GET `{statuses_url}`; fields `context` and `state`. -/
structure Check where
  context : String
  state : String
deriving DecidableEq

/-- The error taxonomy of the script: each constructor is one `raise` site,
carrying the values the source interpolates into the message. -/
inductive PyErr where
  | invalidInput (pr_url : String)
  | valueError (msg : String)
  | typeError (msg : String)
  | apiError (url : String) (data : String) (status : Nat) (content : String)
  | approvalShortfall (approvals : Nat) (required : Int)
  | failedChecks (failed : List (List Check))
deriving DecidableEq

/-! ### URL parsing (`urllib.parse.urlparse` restricted to what the script uses) -/

/-- The characters `urlsplit` strips from the front of the URL: C0 controls
and space (`_WHATWG_C0_CONTROL_OR_SPACE`). -/
def isC0ControlOrSpace (c : Char) : Bool := c.toNat ≤ 32

/-- `urlsplit` removes every tab, CR and LF anywhere in the URL
(`_UNSAFE_URL_BYTES_TO_REMOVE`). -/
def removeTabCrLf (cs : List Char) : List Char :=
  cs.filter (fun c => !(c == '\t' || c == '\r' || c == '\n'))

/-- The cleaning `urlsplit` applies before parsing: lstrip C0-control/space,
then remove tab, CR and LF everywhere. -/
def cleanUrl (cs : List Char) : List Char :=
  removeTabCrLf (cs.dropWhile isC0ControlOrSpace)

/-- Characters allowed in a URL scheme after the initial letter. -/
def isSchemeTailChar (c : Char) : Bool :=
  c.isAlphanum || c == '+' || c == '-' || c == '.'

/-- Consume scheme characters up to a terminating colon; `some (sch, rest)`
when everything before the first `:` is a scheme character. -/
def takeScheme : List Char → Option (List Char × List Char)
  | [] => none
  | c :: rest =>
    if c == ':' then some ([], rest)
    else if isSchemeTailChar c then
      match takeScheme rest with
      | some p => some (c :: p.1, p.2)
      | none => none
    else none

/-- Split a leading `scheme:` when present, yielding the lowercased scheme and
the remainder, as `urlsplit` does. -/
def splitScheme : List Char → List Char × List Char
  | [] => ([], [])
  | c :: rest =>
    if c.isAlpha then
      match takeScheme rest with
      | some p => ((c :: p.1).map Char.toLower, p.2)
      | none => ([], c :: rest)
    else ([], c :: rest)

/-- A character that terminates the netloc component. -/
def netlocDelim (c : Char) : Bool := c == '/' || c == '?' || c == '#'

/-- Remove `//netloc` from the front when the remainder starts with `//`. -/
def stripNetloc : List Char → List Char
  | '/' :: '/' :: rest => rest.dropWhile (fun c => !netlocDelim c)
  | cs => cs

/-- The schemes for which `urlparse` splits `;params` off the path
(`uses_params` in `urllib.parse`, Python 3.11.6). -/
def uses_params : List String :=
  ["", "ftp", "hdl", "prospero", "http", "imap", "https", "shttp", "rtsp",
   "rtsps", "rtspu", "sip", "sips", "mms", "sftp", "tel"]

/-- `_splitparams` on a path containing `;`: cut at the first `;` of the last
`/`-segment (no cut when that segment has no `;`); with no `/` at all, cut at
the first `;`. -/
def splitparams_path (cs : List Char) : List Char :=
  if '/' ∈ cs then
    if ';' ∈ (cs.reverse.takeWhile (fun c => c != '/')).reverse then
      cs.take (cs.length - (cs.reverse.takeWhile (fun c => c != '/')).reverse.length)
        ++ (cs.reverse.takeWhile (fun c => c != '/')).reverse.takeWhile
          (fun c => c != ';')
    else cs
  else cs.takeWhile (fun c => c != ';')

/-- The path component `urlparse(url).path` the script reads: clean the URL,
strip scheme and netloc, cut at the first `#` (fragment) and then at the first
`?` (query), and for a `uses_params` scheme split the `;params` of the last
segment.  The `ValueError` paths of `urlsplit` (unbalanced IPv6 brackets,
non-ASCII netloc checks) are not modelled; no property here quantifies over
netlocs that reach them. -/
def urlPathChars (url : List Char) : List Char :=
  let schemeAndRest := splitScheme (cleanUrl url)
  let path := ((stripNetloc schemeAndRest.2).takeWhile (fun c => c != '#')).takeWhile
    (fun c => c != '?')
  if String.mk schemeAndRest.1 ∈ uses_params ∧ ';' ∈ path then
    splitparams_path path
  else path

/-- The path that `urlPathChars` computes for an `https://host/...` URL before
the `;params` decision: slash plus the remainder with tab/CR/LF removed and
fragment and query stripped. -/
def httpsPathOf (rest : List Char) : List Char :=
  '/' :: (((removeTabCrLf rest).takeWhile (fun c => c != '#')).takeWhile
    (fun c => c != '?'))

/-- Python `str.lstrip('/')`. -/
def lstripSlash (cs : List Char) : List Char := cs.dropWhile (fun c => c == '/')

/-- Python `str.rstrip('/')`. -/
def rstripSlash (cs : List Char) : List Char :=
  (cs.reverse.dropWhile (fun c => c == '/')).reverse

/-- Python `str.split("/")` with an explicit separator: `""` yields `[""]`,
and adjacent separators yield empty fields. -/
def pySplitSlash : List Char → List (List Char)
  | [] => [[]]
  | c :: rest =>
    if c == '/' then [] :: pySplitSlash rest
    else
      match pySplitSlash rest with
      | h :: t => (c :: h) :: t
      | [] => [[c]]

/-- The path segments the script computes:
`urlparse(pr_url).path.lstrip('/').rstrip('/').split("/")`. -/
def prPathSegments (pr_url : String) : List (List Char) :=
  pySplitSlash (rstripSlash (lstripSlash (urlPathChars pr_url.data)))

/-- The record built by `get_pr_url_info`. -/
structure UrlInfo where
  org : String
  repo : String
  pr_number : String
  pr_api_url : String
  pr_repo_url : String
deriving DecidableEq

/-- `get_pr_url_info`: parse the PR URL path; fewer than 4 segments is an
invalid input; otherwise take segments 0, 1 and 3 and derive the API and
clone URLs. -/
def get_pr_url_info (pr_url : String) : Except PyErr UrlInfo :=
  if (prPathSegments pr_url).length < 4 then
    .error (.invalidInput pr_url)
  else
    match prPathSegments pr_url with
    | s0 :: s1 :: _ :: s3 :: _ =>
      .ok { org := String.mk s0
            repo := String.mk s1
            pr_number := String.mk s3
            pr_api_url := "https://api.github.com/repos/" ++ String.mk s0 ++ "/"
              ++ String.mk s1 ++ "/pulls/" ++ String.mk s3
            pr_repo_url := "https://github.com/" ++ String.mk s0 ++ "/"
              ++ String.mk s1 ++ ".git" }
    | _ => .error (.invalidInput pr_url)

/-! ### Environment and configuration -/

/-- The two optional environment variables the script reads. -/
structure Env where
  pr_merge_approval_count : Option String
  pr_merge_status_labels : Option String

/-- `get_env_var_value`: the variable's value when present, else the default. -/
def get_env_var_value (v : Option String) (default_val : String) : String :=
  match v with
  | some s => s
  | none => default_val

/-- The digit part of a Python decimal int literal: nonempty digits with
single underscores allowed between digits (`1_0` is valid; `_1`, `1_`,
`1__0` are not). -/
def pyDigitsTail : List Char → Bool
  | [] => true
  | '_' :: c :: rest => c.isDigit && pyDigitsTail rest
  | '_' :: [] => false
  | c :: rest => c.isDigit && pyDigitsTail rest

/-- A valid Python decimal digit string: nonempty, starts with a digit, and
underscores appear only between digits. -/
def pyDigits (cs : List Char) : Bool :=
  match cs with
  | [] => false
  | c :: rest => c.isDigit && pyDigitsTail rest

/-- Python `int(s)`, raising `ValueError` on a non-integer literal: strip
surrounding whitespace, accept an optional sign followed by decimal digits
with underscore grouping. -/
def python_int (s : String) : Except PyErr Int :=
  let t := ((s.data.dropWhile Char.isWhitespace).reverse.dropWhile
    Char.isWhitespace).reverse
  let signAndDigits : Int × List Char :=
    match t with
    | '+' :: rest => (1, rest)
    | '-' :: rest => (-1, rest)
    | _ => (1, t)
  if pyDigits signAndDigits.2 then
    .ok (signAndDigits.1 *
      ((signAndDigits.2.filter (fun c => c != '_')).foldl
        (fun acc c => acc * 10 + (c.toNat - 48)) 0 : Nat))
  else
    .error (.valueError ("invalid literal for int() with base 10: " ++ s))

/-! ### HTTP layer -/

/-- The PR object from GET of the PR API URL; the fields the script reads. -/
structure PrObj where
  head_ref : String
  base_ref : String
  merged : Bool
  statuses_url : String

/-- The server's behaviour for the four requests of one run: status code, raw
content, and decoded JSON body for each. -/
structure World where
  pr_status : Nat
  pr_content : String
  pr_body : PrObj
  reviews_status : Nat
  reviews_content : String
  reviews_body : List Review
  checks_status : Nat
  checks_content : String
  checks_body : List Check
  merge_status : Nat
  merge_content : String
  merge_body : List (String × String)

/-- One network request issued by the script. -/
inductive Request where
  | get (url : String)
  | put (url : String) (data : String)
deriving DecidableEq

/-- Whether a request is a PUT. -/
def Request.isPut : Request → Bool
  | .put _ _ => true
  | .get _ => false

/-- `is_success_status`: membership in `[200, 201, 202, 203, 204]`. -/
def is_success_status (status_code : Nat) : Bool :=
  [200, 201, 202, 203, 204].contains status_code

/-- `resp.content if resp.content else ""` (identity on strings). -/
def pyContent (s : String) : String := if s = "" then "" else s

/-- `get_reponse_json` (name as in the source): on a success status return the
decoded body, else raise the API error carrying url, data, status, content. -/
def get_reponse_json {α : Type} (status : Nat) (content : String) (body : α)
    (url : String) (data : String) : Except PyErr α :=
  if is_success_status status then .ok body
  else .error (.apiError url data status (pyContent content))

/-! ### Approvals and checks -/

/-- The record built by `get_approval_info`. -/
structure ApprovalInfo where
  approvals : Nat
  required_approvals : Int
deriving DecidableEq

/-- `get_approval_info`: fetch the reviews, count those with state exactly
`"APPROVED"`, and read the required count from `PR_MERGE_APPROVAL_COUNT`
(default `"2"`). -/
def get_approval_info (env : Env) (w : World) (pr_reviews_url : String) :
    Except PyErr ApprovalInfo × List Request :=
  match get_reponse_json w.reviews_status w.reviews_content w.reviews_body
      pr_reviews_url "" with
  | .error e => (.error e, [.get pr_reviews_url])
  | .ok pr_reviews =>
    match python_int (get_env_var_value env.pr_merge_approval_count "2") with
    | .error e => (.error e, [.get pr_reviews_url])
    | .ok n =>
      (.ok { approvals :=
               (pr_reviews.filter (fun review => review.state == "APPROVED")).length
             required_approvals := n },
       [.get pr_reviews_url])

/-- The loop of `get_checks_info`.  The source iterates the configured label
string one character at a time; for each character it filters the checks by
exact context match.  When the filtered list is nonempty, the guard evaluates
`found_required_check['state']` where `found_required_check` is a list, which
raises `TypeError` before the append can run, so the returned list of failed
checks is always empty. -/
def checks_loop (pr_checks : List Check) : List Char → Except PyErr (List (List Check))
  | [] => .ok []
  | required_check :: rest =>
    if (pr_checks.filter
        (fun check => check.context == String.mk [required_check])).isEmpty then
      checks_loop pr_checks rest
    else
      .error (.typeError "list indices must be integers or slices, not str")

/-- The record built by `get_checks_info`. -/
structure ChecksInfo where
  failed_checks : List (List Check)
deriving DecidableEq

/-- `get_checks_info`: fetch the checks, then run the label loop over the
characters of `PR_MERGE_STATUS_LABELS` (default empty). -/
def get_checks_info (env : Env) (w : World) (pr_checks_url : String) :
    Except PyErr ChecksInfo × List Request :=
  match get_reponse_json w.checks_status w.checks_content w.checks_body
      pr_checks_url "" with
  | .error e => (.error e, [.get pr_checks_url])
  | .ok pr_checks =>
    match checks_loop pr_checks (get_env_var_value env.pr_merge_status_labels "").data with
    | .error e => (.error e, [.get pr_checks_url])
    | .ok failed => (.ok { failed_checks := failed }, [.get pr_checks_url])

/-! ### Orchestration -/

/-- The aggregate record the script accumulates and finally writes out. -/
structure PrInfo where
  org : String
  repo : String
  pr_number : String
  pr_api_url : String
  pr_repo_url : String
  source_branch : String
  target_branch : String
  already_merged : Bool
  approvals : Nat
  required_approvals : Int
  failed_checks : List (List Check)
  merge_fields : List (String × String)
deriving DecidableEq

/-- `get_pr_info`: parse the URL, GET the PR object, record branches and the
merged flag, then fetch approval info and checks info (always, in that
order). -/
def get_pr_info (env : Env) (w : World) (pr_url : String) :
    Except PyErr PrInfo × List Request :=
  match get_pr_url_info pr_url with
  | .error e => (.error e, [])
  | .ok u =>
    match get_reponse_json w.pr_status w.pr_content w.pr_body u.pr_api_url "" with
    | .error e => (.error e, [.get u.pr_api_url])
    | .ok pr =>
      match get_approval_info env w (u.pr_api_url ++ "/reviews") with
      | (.error e, t1) => (.error e, .get u.pr_api_url :: t1)
      | (.ok ai, t1) =>
        match get_checks_info env w pr.statuses_url with
        | (.error e, t2) => (.error e, .get u.pr_api_url :: (t1 ++ t2))
        | (.ok ci, t2) =>
          (.ok { org := u.org
                 repo := u.repo
                 pr_number := u.pr_number
                 pr_api_url := u.pr_api_url
                 pr_repo_url := u.pr_repo_url
                 source_branch := pr.head_ref
                 target_branch := pr.base_ref
                 already_merged := pr.merged
                 approvals := ai.approvals
                 required_approvals := ai.required_approvals
                 failed_checks := ci.failed_checks
                 merge_fields := [] },
           .get u.pr_api_url :: (t1 ++ t2))

/-- The fixed commit title of the merge request body. -/
def merge_commit_title : String := "PR merged by PR Utility (Jenkins)"

/-- The fixed commit message of the merge request body. -/
def merge_commit_message : String :=
  "PR merged by PR Utility (Jenkins) with required checks"

/-- `json.dumps` of the merge body dict, keys in insertion order. -/
def merge_request_data : String :=
  "\x7b\"commit_title\": \"" ++ merge_commit_title ++ "\", \"commit_message\": \""
    ++ merge_commit_message ++ "\"\x7d"

/-- `merge`: PUT the fixed body to `{pr_api_url}/merge` and return the
decoded response. -/
def merge (w : World) (pr_info : PrInfo) :
    Except PyErr (List (String × String)) × List Request :=
  match get_reponse_json w.merge_status w.merge_content w.merge_body
      (pr_info.pr_api_url ++ "/merge") merge_request_data with
  | .error e => (.error e, [.put (pr_info.pr_api_url ++ "/merge") merge_request_data])
  | .ok mi => (.ok mi, [.put (pr_info.pr_api_url ++ "/merge") merge_request_data])

/-- `process_pr`: fetch the PR info; when not already merged, raise on an
approval shortfall, then on recorded failed checks, and otherwise merge and
fold the merge response into the record. -/
def process_pr (env : Env) (w : World) (pr_url : String) :
    Except PyErr PrInfo × List Request :=
  match get_pr_info env w pr_url with
  | (.error e, t) => (.error e, t)
  | (.ok pr_info, t1) =>
    if !pr_info.already_merged then
      if (pr_info.approvals : Int) < pr_info.required_approvals then
        (.error (.approvalShortfall pr_info.approvals pr_info.required_approvals), t1)
      else if pr_info.failed_checks.length > 0 then
        (.error (.failedChecks pr_info.failed_checks), t1)
      else
        match merge w pr_info with
        | (.error e, t2) => (.error e, t1 ++ t2)
        | (.ok mi, t2) => (.ok { pr_info with merge_fields := mi }, t1 ++ t2)
    else (.ok pr_info, t1)

/-- The module tail: `git_merge_ouput.json` (spelling as in the source) is
written only when `process_pr` returns normally. -/
def output_files (env : Env) (w : World) (pr_url : String) :
    List (String × PrInfo) :=
  match process_pr env w pr_url with
  | (.ok pr_info, _) => [("git_merge_ouput.json", pr_info)]
  | (.error _, _) => []

/-! ### Fixed sample inputs used by witnesses and counterexamples -/

/-- A path segment that survives the parse unchanged: nonempty and free of
separator, fragment and query characters. -/
def segOk (s : String) : Prop :=
  s.data ≠ [] ∧ ∀ c ∈ s.data,
    c ≠ '/' ∧ c ≠ '#' ∧ c ≠ '?' ∧ c ≠ ';' ∧ c ≠ '\t' ∧ c ≠ '\r' ∧ c ≠ '\n'

instance (s : String) : Decidable (segOk s) := by
  unfold segOk; infer_instance

def url0 : String := "https://github.com/kumvijaya/pr-merge-demo/pull/1"

def api0 : String := "https://api.github.com/repos/kumvijaya/pr-merge-demo/pulls/1"

def env0 : Env := { pr_merge_approval_count := none, pr_merge_status_labels := none }

def env_ci : Env :=
  { pr_merge_approval_count := none, pr_merge_status_labels := some "ci" }

def prObj0 : PrObj :=
  { head_ref := "feature-1", base_ref := "main", merged := false,
    statuses_url := "https://api.github.com/repos/kumvijaya/pr-merge-demo/statuses/abc123" }

def w0 : World :=
  { pr_status := 200, pr_content := "", pr_body := prObj0,
    reviews_status := 200, reviews_content := "",
    reviews_body := [⟨"APPROVED"⟩, ⟨"APPROVED"⟩, ⟨"COMMENTED"⟩],
    checks_status := 200, checks_content := "", checks_body := [],
    merge_status := 200, merge_content := "",
    merge_body := [("sha", "6dcb09b"), ("merged", "true"),
                   ("message", "Pull Request successfully merged")] }

def u0 : UrlInfo :=
  { org := "kumvijaya", repo := "pr-merge-demo", pr_number := "1",
    pr_api_url := api0,
    pr_repo_url := "https://github.com/kumvijaya/pr-merge-demo.git" }

def w_c : World := { w0 with checks_body := [⟨"c", "success"⟩] }

def w_c1 : World := { w0 with checks_body := [⟨"ci", "failure"⟩] }

def w_low : World := { w0 with reviews_body := [⟨"approved"⟩] }

def w_merged : World := { w0 with pr_body := { prObj0 with merged := true } }

def w_bad1 : World := { w0 with pr_status := 404, pr_content := "nf" }

def w_bad2 : World := { w0 with reviews_status := 500, reviews_content := "boom" }

def w_bad3 : World := { w0 with checks_status := 403, checks_content := "forbidden" }

def w_bad4 : World := { w0 with merge_status := 405, merge_content := "not allowed" }

/-! ### Helper lemmas -/

theorem dropWhile_append_of_all {p : Char → Bool} (a b : List Char)
    (h : ∀ c ∈ a, p c = true) : (a ++ b).dropWhile p = b.dropWhile p := by
  induction a with
  | nil => rfl
  | cons c cs ih =>
    rw [List.cons_append, List.dropWhile_cons]
    rw [h c (by simp)]
    exact ih (fun x hx => h x (by simp [hx]))

/-- The path of an `https://` URL: slash plus the remainder with tab/CR/LF
removed and fragment and query stripped, then the `;params` split ("https" is
a `uses_params` scheme). -/
theorem urlPathChars_https (hst rest : List Char)
    (hh : ∀ c ∈ hst, netlocDelim c = false) :
    urlPathChars ("https://".data ++ (hst ++ '/' :: rest))
      = if ';' ∈ httpsPathOf rest then splitparams_path (httpsPathOf rest)
        else httpsPathOf rest := by
  have hclean : cleanUrl ("https://".data ++ (hst ++ '/' :: rest))
      = 'h' :: 't' :: 't' :: 'p' :: 's' :: ':' :: '/' :: '/'
        :: (removeTabCrLf hst ++ '/' :: removeTabCrLf rest) := by
    show removeTabCrLf (('h' :: 't' :: 't' :: 'p' :: 's' :: ':' :: '/' :: '/'
        :: (hst ++ '/' :: rest)).dropWhile isC0ControlOrSpace) = _
    rw [List.dropWhile_cons_of_neg (by decide)]
    unfold removeTabCrLf
    rw [List.filter_cons_of_pos (by decide), List.filter_cons_of_pos (by decide),
        List.filter_cons_of_pos (by decide), List.filter_cons_of_pos (by decide),
        List.filter_cons_of_pos (by decide), List.filter_cons_of_pos (by decide),
        List.filter_cons_of_pos (by decide), List.filter_cons_of_pos (by decide),
        List.filter_append, List.filter_cons_of_pos (by decide)]
  have hsplit : splitScheme ('h' :: 't' :: 't' :: 'p' :: 's' :: ':' :: '/' :: '/'
      :: (removeTabCrLf hst ++ '/' :: removeTabCrLf rest))
      = (['h', 't', 't', 'p', 's'],
         '/' :: '/' :: (removeTabCrLf hst ++ '/' :: removeTabCrLf rest)) := rfl
  have hnet : stripNetloc ('/' :: '/' :: (removeTabCrLf hst ++ '/' :: removeTabCrLf rest))
      = '/' :: removeTabCrLf rest := by
    show (removeTabCrLf hst ++ '/' :: removeTabCrLf rest).dropWhile
        (fun c => !netlocDelim c) = '/' :: removeTabCrLf rest
    rw [dropWhile_append_of_all _ _ (fun c hc => by
      rw [hh c (List.mem_of_mem_filter hc)]; rfl)]
    rfl
  unfold urlPathChars
  rw [hclean, hsplit]
  dsimp only
  rw [hnet]
  rw [List.takeWhile_cons_of_pos (by decide), List.takeWhile_cons_of_pos (by decide)]
  unfold httpsPathOf
  by_cases hsc : ';' ∈ ('/' :: (((removeTabCrLf rest).takeWhile
      (fun c => c != '#')).takeWhile (fun c => c != '?')))
  · rw [if_pos ⟨by decide, hsc⟩, if_pos hsc]
  · rw [if_neg (fun hand => hsc hand.2), if_neg hsc]

theorem pySplitSlash_no_slash (a : List Char) (h : ∀ c ∈ a, c ≠ '/') :
    pySplitSlash a = [a] := by
  induction a with
  | nil => rfl
  | cons c cs ih =>
    have hc : (c == '/') = false := by
      simpa using h c (by simp)
    simp [pySplitSlash, hc, ih (fun x hx => h x (by simp [hx]))]

theorem pySplitSlash_append (a rest : List Char) (h : ∀ c ∈ a, c ≠ '/') :
    pySplitSlash (a ++ '/' :: rest) = a :: pySplitSlash rest := by
  induction a with
  | nil => simp [pySplitSlash]
  | cons c cs ih =>
    have hc : (c == '/') = false := by
      simpa using h c (by simp)
    rw [List.cons_append]
    simp only [pySplitSlash, hc]
    rw [ih (fun x hx => h x (by simp [hx]))]
    simp

theorem rstripSlash_eq_self (l : List Char) (h : ∀ c, l.getLast? = some c → c ≠ '/') :
    rstripSlash l = l := by
  rcases List.eq_nil_or_concat l with hnil | ⟨L, b, hcat⟩
  · subst hnil; rfl
  · subst hcat
    have hb : b ≠ '/' := h b (by simp [List.getLast?_concat])
    have hb' : (b == '/') = false := by simpa using hb
    unfold rstripSlash
    rw [show (L.concat b).reverse = b :: L.reverse by simp]
    rw [List.dropWhile_cons_of_neg (by simp [hb'])]
    simp

theorem lstripSlash_slash_cons (a b : List Char) (ha : a ≠ [])
    (h : ∀ c ∈ a, c ≠ '/') : lstripSlash ('/' :: (a ++ b)) = a ++ b := by
  cases a with
  | nil => exact absurd rfl ha
  | cons c cs =>
    have hc : (c == '/') = false := by simpa using h c (by simp)
    simp [lstripSlash, List.dropWhile, hc]

/-- A character drawn from a `segOk` segment passes the tab/CR/LF filter and
is none of `#`, `?`, `;`. -/
theorem seg_char_facts {c : Char}
    (h : c ≠ '/' ∧ c ≠ '#' ∧ c ≠ '?' ∧ c ≠ ';' ∧ c ≠ '\t' ∧ c ≠ '\r' ∧ c ≠ '\n') :
    c ≠ '#' ∧ c ≠ '?' ∧ c ≠ ';' ∧ (!(c == '\t' || c == '\r' || c == '\n')) = true := by
  obtain ⟨-, h2, h3, h4, h5, h6, h7⟩ := h
  refine ⟨h2, h3, h4, ?_⟩
  simp [h5, h6, h7]

theorem prPathSegments_pull (org repo n : String)
    (ho : segOk org) (hr : segOk repo) (hn : segOk n) :
    prPathSegments ("https://github.com/" ++ org ++ "/" ++ repo ++ "/pull/" ++ n)
      = [org.data, repo.data, ['p', 'u', 'l', 'l'], n.data] := by
  have hdata : ("https://github.com/" ++ org ++ "/" ++ repo ++ "/pull/" ++ n).data
      = "https://".data ++ ("github.com".data ++ '/' ::
          (org.data ++ '/' :: (repo.data ++ '/' :: 'p' :: 'u' :: 'l' :: 'l' :: '/' :: n.data))) := by
    show "https://github.com/".data ++ org.data ++ "/".data ++ repo.data
        ++ "/pull/".data ++ n.data = _
    simp [List.append_assoc]
  have hmem : ∀ c ∈ org.data ++ '/' :: (repo.data ++ '/' :: 'p' :: 'u' :: 'l' :: 'l' :: '/' :: n.data),
      c ≠ '#' ∧ c ≠ '?' ∧ c ≠ ';' ∧ (!(c == '\t' || c == '\r' || c == '\n')) = true := by
    intro c hc
    simp only [List.mem_append, List.mem_cons] at hc
    rcases hc with hc | rfl | hc | rfl | rfl | rfl | rfl | rfl | rfl | hc
    · exact seg_char_facts (ho.2 c hc)
    · exact ⟨by decide, by decide, by decide, by decide⟩
    · exact seg_char_facts (hr.2 c hc)
    all_goals first
      | exact ⟨by decide, by decide, by decide, by decide⟩
      | exact seg_char_facts (hn.2 c hc)
  have hfil : removeTabCrLf
      (org.data ++ '/' :: (repo.data ++ '/' :: 'p' :: 'u' :: 'l' :: 'l' :: '/' :: n.data))
      = org.data ++ '/' :: (repo.data ++ '/' :: 'p' :: 'u' :: 'l' :: 'l' :: '/' :: n.data) :=
    List.filter_eq_self.mpr (fun c hc => (hmem c hc).2.2.2)
  have t1 : List.takeWhile (fun c => c != '#')
      (org.data ++ '/' :: (repo.data ++ '/' :: 'p' :: 'u' :: 'l' :: 'l' :: '/' :: n.data))
      = org.data ++ '/' :: (repo.data ++ '/' :: 'p' :: 'u' :: 'l' :: 'l' :: '/' :: n.data) :=
    List.takeWhile_eq_self_iff.mpr (fun c hc => by simpa using (hmem c hc).1)
  have t2 : List.takeWhile (fun c => c != '?')
      (org.data ++ '/' :: (repo.data ++ '/' :: 'p' :: 'u' :: 'l' :: 'l' :: '/' :: n.data))
      = org.data ++ '/' :: (repo.data ++ '/' :: 'p' :: 'u' :: 'l' :: 'l' :: '/' :: n.data) :=
    List.takeWhile_eq_self_iff.mpr (fun c hc => by simpa using (hmem c hc).2.1)
  have hpath : httpsPathOf
      (org.data ++ '/' :: (repo.data ++ '/' :: 'p' :: 'u' :: 'l' :: 'l' :: '/' :: n.data))
      = '/' :: (org.data ++ '/' :: (repo.data ++ '/' :: 'p' :: 'u' :: 'l' :: 'l' :: '/' :: n.data)) := by
    unfold httpsPathOf
    rw [hfil, t1, t2]
  have hsc : ¬ (';' ∈ httpsPathOf
      (org.data ++ '/' :: (repo.data ++ '/' :: 'p' :: 'u' :: 'l' :: 'l' :: '/' :: n.data))) := by
    rw [hpath]
    intro hm
    rcases List.mem_cons.mp hm with he | hm2
    · exact absurd he (by decide)
    · exact (hmem _ hm2).2.2.1 rfl
  unfold prPathSegments
  rw [hdata, urlPathChars_https _ _ (by decide), if_neg hsc, hpath]
  rw [lstripSlash_slash_cons _ _ ho.1 (fun c hc => (ho.2 c hc).1)]
  rw [rstripSlash_eq_self]
  · rw [pySplitSlash_append _ _ (fun c hc => (ho.2 c hc).1)]
    rw [pySplitSlash_append _ _ (fun c hc => (hr.2 c hc).1)]
    have h4 : pySplitSlash ('p' :: 'u' :: 'l' :: 'l' :: '/' :: n.data)
        = ['p', 'u', 'l', 'l'] :: pySplitSlash n.data := by
      have := pySplitSlash_append ['p', 'u', 'l', 'l'] n.data (by decide)
      simpa using this
    rw [h4, pySplitSlash_no_slash _ (fun c hc => (hn.2 c hc).1)]
  · intro c hc
    have hL : org.data ++ '/' :: (repo.data ++ '/' :: 'p' :: 'u' :: 'l' :: 'l' :: '/' :: n.data)
        = (org.data ++ '/' :: (repo.data ++ ['/', 'p', 'u', 'l', 'l', '/'])) ++ n.data := by
      simp
    rw [hL, List.getLast?_append_of_ne_nil _ hn.1] at hc
    rcases List.mem_getLast?_eq_getLast (Option.mem_def.mpr hc) with ⟨h1, rfl⟩
    exact (hn.2 _ (List.getLast_mem h1)).1

/-- The parse result depends only on the path, not on the host. -/
theorem prPathSegments_host_eq (hs1 hs2 p : String)
    (hh1 : ∀ c ∈ hs1.data, netlocDelim c = false)
    (hh2 : ∀ c ∈ hs2.data, netlocDelim c = false) :
    prPathSegments ("https://" ++ hs1 ++ "/" ++ p)
      = prPathSegments ("https://" ++ hs2 ++ "/" ++ p) := by
  have e : ∀ (hst : String), (∀ c ∈ hst.data, netlocDelim c = false) →
      urlPathChars ("https://" ++ hst ++ "/" ++ p).data
      = if ';' ∈ httpsPathOf p.data then splitparams_path (httpsPathOf p.data)
        else httpsPathOf p.data := by
    intro hst hh
    have hd : ("https://" ++ hst ++ "/" ++ p).data
        = "https://".data ++ (hst.data ++ '/' :: p.data) := by
      show "https://".data ++ hst.data ++ "/".data ++ p.data = _
      simp [List.append_assoc]
    rw [hd, urlPathChars_https _ _ hh]
  unfold prPathSegments
  rw [e hs1 hh1, e hs2 hh2]

/-- `resp.content if resp.content else ""` is the content itself. -/
theorem pyContent_eq (s : String) : pyContent s = s := by
  unfold pyContent
  split
  · next h => exact h.symm
  · rfl

/-- Happy path through `get_pr_info`: all three GETs succeed, the threshold
parses, and the label loop returns. -/
theorem get_pr_info_ok (env : Env) (w : World) (pr_url : String) (u : UrlInfo)
    (req : Int) (fc : List (List Check))
    (hu : get_pr_url_info pr_url = .ok u)
    (h1 : is_success_status w.pr_status = true)
    (h2 : is_success_status w.reviews_status = true)
    (hreq : python_int (get_env_var_value env.pr_merge_approval_count "2") = .ok req)
    (h3 : is_success_status w.checks_status = true)
    (hloop : checks_loop w.checks_body
        (get_env_var_value env.pr_merge_status_labels "").data = .ok fc) :
    get_pr_info env w pr_url =
      (.ok { org := u.org, repo := u.repo, pr_number := u.pr_number,
             pr_api_url := u.pr_api_url, pr_repo_url := u.pr_repo_url,
             source_branch := w.pr_body.head_ref, target_branch := w.pr_body.base_ref,
             already_merged := w.pr_body.merged,
             approvals := (w.reviews_body.filter (fun r => r.state == "APPROVED")).length,
             required_approvals := req, failed_checks := fc, merge_fields := [] },
       [.get u.pr_api_url, .get (u.pr_api_url ++ "/reviews"),
        .get w.pr_body.statuses_url]) := by
  unfold get_pr_info get_approval_info get_checks_info get_reponse_json
  rw [hu]
  simp only [h1, if_true, hreq, h2, h3, hloop]
  rfl

/-- Whenever the label loop returns normally, the failed-checks list is empty:
in the source the append is guarded by an expression that raises first. -/
theorem checks_loop_ok_nil (checks : List Check) :
    ∀ (ls : List Char) (r : List (List Check)), checks_loop checks ls = .ok r → r = [] := by
  intro ls
  induction ls with
  | nil =>
    intro r h
    simp [checks_loop] at h
    exact h
  | cons c cs ih =>
    intro r h
    simp only [checks_loop] at h
    split at h
    · exact ih r h
    · simp at h

/-- When no check context matches any configured character, the loop returns
an empty failed-checks list. -/
theorem checks_loop_no_match (checks : List Check) :
    ∀ (ls : List Char), (∀ c ∈ ls, ∀ ch ∈ checks, ch.context ≠ String.mk [c]) →
      checks_loop checks ls = .ok [] := by
  intro ls
  induction ls with
  | nil => intro _; rfl
  | cons c cs ih =>
    intro h
    have hf : checks.filter (fun check => check.context == String.mk [c]) = [] := by
      rw [List.filter_eq_nil_iff]
      intro ch hch
      simpa using h c (by simp) ch hch
    simp only [checks_loop, hf]
    exact ih (fun x hx ch hch => h x (by simp [hx]) ch hch)

/-- When some check context matches some configured character, the loop raises
the list-indexing `TypeError`. -/
theorem checks_loop_has_match (checks : List Check) :
    ∀ (ls : List Char) (c : Char), c ∈ ls → ∀ ch ∈ checks, ch.context = String.mk [c] →
      checks_loop checks ls = .error (.typeError "list indices must be integers or slices, not str") := by
  intro ls
  induction ls with
  | nil => intro c hc; exact absurd hc (by simp)
  | cons c0 cs ih =>
    intro c hc ch hch hctx
    by_cases hemp : (checks.filter (fun check => check.context == String.mk [c0])).isEmpty
    · have hne : c ≠ c0 := by
        intro he
        subst he
        have : ch ∈ checks.filter (fun check => check.context == String.mk [c]) :=
          List.mem_filter.mpr ⟨hch, by simp [hctx]⟩
        rw [List.isEmpty_iff] at hemp
        simp [hemp] at this
      have hcs : c ∈ cs := by
        rcases List.mem_cons.mp hc with he | hcs
        · exact absurd he hne
        · exact hcs
      simp only [checks_loop, hemp, if_true]
      exact ih c hcs ch hch hctx
    · simp only [checks_loop]
      rw [if_neg (by simpa using hemp)]

/-! ### Claims -/

/-- Claim C1 (code bug): with `PR_MERGE_STATUS_LABELS = "ci"` and a fetched
check `context = "ci", state = "failure"`, the gate does not fail: the labels
are iterated character-wise, neither 'c' nor 'i' matches context "ci", no
failed check is recorded, and the merge PUT is issued. -/
theorem C1_failing_required_check_merges_anyway :
    process_pr env_ci w_c1 url0
      = (.ok { org := "kumvijaya", repo := "pr-merge-demo", pr_number := "1",
               pr_api_url := api0,
               pr_repo_url := "https://github.com/kumvijaya/pr-merge-demo.git",
               source_branch := "feature-1", target_branch := "main",
               already_merged := false, approvals := 2, required_approvals := 2,
               failed_checks := [],
               merge_fields := [("sha", "6dcb09b"), ("merged", "true"),
                                ("message", "Pull Request successfully merged")] },
         [.get api0, .get (api0 ++ "/reviews"),
          .get "https://api.github.com/repos/kumvijaya/pr-merge-demo/statuses/abc123",
          .put (api0 ++ "/merge") merge_request_data])
    ∧ w_c1.checks_body = [⟨"ci", "failure"⟩]
    ∧ env_ci.pr_merge_status_labels = some "ci" := by decide

/-- Claim C2, counterexample: a review whose state is the lowercase string
"approved" is not counted — the code matches the exact uppercase "APPROVED",
so the approval count is 0 while the number of reviews with state "approved"
is 1. -/
theorem C2_counterexample :
    get_approval_info env0 w_low "r"
      = (.ok { approvals := 0, required_approvals := 2 }, [.get "r"])
    ∧ (w_low.reviews_body.filter (fun r => r.state == "approved")).length = 1 := by
  decide

/-- Claim C2 (amended): the approval count equals the number of reviews whose
state is exactly "APPROVED" (case-sensitive), the required threshold is the
integer value of PR_MERGE_APPROVAL_COUNT defaulting to 2, and on a
not-already-merged PR with all fetches succeeding the run fails with the
approval-shortfall error iff the count is below the threshold. -/
theorem C2_approval_gate (env : Env) (w : World) (pr_url : String) (u : UrlInfo)
    (req : Int) (fc : List (List Check))
    (hu : get_pr_url_info pr_url = .ok u)
    (h1 : is_success_status w.pr_status = true)
    (h2 : is_success_status w.reviews_status = true)
    (hreq : python_int (get_env_var_value env.pr_merge_approval_count "2") = .ok req)
    (h3 : is_success_status w.checks_status = true)
    (hloop : checks_loop w.checks_body
        (get_env_var_value env.pr_merge_status_labels "").data = .ok fc)
    (hmerged : w.pr_body.merged = false) :
    (get_approval_info env w (u.pr_api_url ++ "/reviews")).1
        = .ok { approvals := (w.reviews_body.filter
                  (fun r => r.state == "APPROVED")).length,
                required_approvals := req }
    ∧ python_int (get_env_var_value (none : Option String) "2") = .ok 2
    ∧ ((process_pr env w pr_url).1
          = .error (.approvalShortfall
              ((w.reviews_body.filter (fun r => r.state == "APPROVED")).length) req)
        ↔ (((w.reviews_body.filter (fun r => r.state == "APPROVED")).length : Int) < req)) := by
  have hfc : fc = [] := checks_loop_ok_nil _ _ _ hloop
  subst hfc
  have hmain := get_pr_info_ok env w pr_url u req [] hu h1 h2 hreq h3 hloop
  refine ⟨?_, by decide, ?_, ?_⟩
  · unfold get_approval_info get_reponse_json
    simp only [h2, if_true, hreq]
  · intro h
    by_contra hge
    unfold process_pr at h
    rw [hmain] at h
    simp only [hmerged, Bool.not_false, if_true] at h
    rw [if_neg hge] at h
    simp only [List.length_nil, gt_iff_lt, Nat.lt_irrefl, if_false] at h
    unfold merge get_reponse_json at h
    cases hms : is_success_status w.merge_status with
    | true => rw [hms] at h; simp at h
    | false => rw [hms] at h; simp at h
  · intro hlt
    unfold process_pr
    rw [hmain]
    simp only [hmerged, Bool.not_false, if_true]
    rw [if_pos hlt]

theorem C2_witness :
    get_pr_url_info url0 = .ok u0 ∧
    is_success_status w_low.pr_status = true ∧
    is_success_status w_low.reviews_status = true ∧
    python_int (get_env_var_value env0.pr_merge_approval_count "2") = .ok 2 ∧
    is_success_status w_low.checks_status = true ∧
    checks_loop w_low.checks_body
        (get_env_var_value env0.pr_merge_status_labels "").data = .ok [] ∧
    w_low.pr_body.merged = false ∧
    ((get_approval_info env0 w_low (u0.pr_api_url ++ "/reviews")).1
        = .ok { approvals := (w_low.reviews_body.filter
                  (fun r => r.state == "APPROVED")).length,
                required_approvals := 2 }
     ∧ python_int (get_env_var_value (none : Option String) "2") = .ok 2
     ∧ ((process_pr env0 w_low url0).1
          = .error (.approvalShortfall
              ((w_low.reviews_body.filter (fun r => r.state == "APPROVED")).length) 2)
        ↔ (((w_low.reviews_body.filter (fun r => r.state == "APPROVED")).length : Int) < 2))) :=
  ⟨by decide, by decide, by decide, by decide, by decide, by decide, by decide,
   C2_approval_gate env0 w_low url0 u0 2 [] (by decide) (by decide) (by decide)
     (by decide) (by decide) (by decide) (by decide)⟩

/-- Claim C3, counterexample: with the PR already merged, the run still issues
the review fetch (and the check fetch) — the trace of a merged-PR run contains
the GET of the reviews URL. -/
theorem C3_counterexample :
    w_merged.pr_body.merged = true
    ∧ Request.get (api0 ++ "/reviews") ∈ (process_pr env0 w_merged url0).2
    ∧ Request.get w_merged.pr_body.statuses_url ∈ (process_pr env0 w_merged url0).2 := by
  decide

/-- Claim C3 (amended): for a PR whose fetched object has `merged = true`, the
run returns the PR info record and issues no merge call, but the review fetch
and the check fetch are still performed. -/
theorem C3_already_merged (env : Env) (w : World) (pr_url : String) (u : UrlInfo)
    (req : Int) (fc : List (List Check))
    (hu : get_pr_url_info pr_url = .ok u)
    (h1 : is_success_status w.pr_status = true)
    (h2 : is_success_status w.reviews_status = true)
    (hreq : python_int (get_env_var_value env.pr_merge_approval_count "2") = .ok req)
    (h3 : is_success_status w.checks_status = true)
    (hloop : checks_loop w.checks_body
        (get_env_var_value env.pr_merge_status_labels "").data = .ok fc)
    (hmerged : w.pr_body.merged = true) :
    process_pr env w pr_url
      = (.ok { org := u.org, repo := u.repo, pr_number := u.pr_number,
               pr_api_url := u.pr_api_url, pr_repo_url := u.pr_repo_url,
               source_branch := w.pr_body.head_ref, target_branch := w.pr_body.base_ref,
               already_merged := true,
               approvals := (w.reviews_body.filter (fun r => r.state == "APPROVED")).length,
               required_approvals := req, failed_checks := fc, merge_fields := [] },
         [.get u.pr_api_url, .get (u.pr_api_url ++ "/reviews"),
          .get w.pr_body.statuses_url])
    ∧ ((process_pr env w pr_url).2.filter Request.isPut) = [] := by
  have hmain := get_pr_info_ok env w pr_url u req fc hu h1 h2 hreq h3 hloop
  have hp : process_pr env w pr_url
      = (.ok { org := u.org, repo := u.repo, pr_number := u.pr_number,
               pr_api_url := u.pr_api_url, pr_repo_url := u.pr_repo_url,
               source_branch := w.pr_body.head_ref, target_branch := w.pr_body.base_ref,
               already_merged := true,
               approvals := (w.reviews_body.filter (fun r => r.state == "APPROVED")).length,
               required_approvals := req, failed_checks := fc, merge_fields := [] },
         [.get u.pr_api_url, .get (u.pr_api_url ++ "/reviews"),
          .get w.pr_body.statuses_url]) := by
    unfold process_pr
    rw [hmain]
    simp [hmerged]
  exact ⟨hp, by rw [hp]; rfl⟩

theorem C3_witness :
    get_pr_url_info url0 = .ok u0 ∧
    w_merged.pr_body.merged = true ∧
    (process_pr env0 w_merged url0
      = (.ok { org := u0.org, repo := u0.repo, pr_number := u0.pr_number,
               pr_api_url := u0.pr_api_url, pr_repo_url := u0.pr_repo_url,
               source_branch := w_merged.pr_body.head_ref,
               target_branch := w_merged.pr_body.base_ref,
               already_merged := true,
               approvals := (w_merged.reviews_body.filter
                 (fun r => r.state == "APPROVED")).length,
               required_approvals := 2, failed_checks := [], merge_fields := [] },
         [.get u0.pr_api_url, .get (u0.pr_api_url ++ "/reviews"),
          .get w_merged.pr_body.statuses_url])
     ∧ ((process_pr env0 w_merged url0).2.filter Request.isPut) = []) :=
  ⟨by decide, by decide,
   C3_already_merged env0 w_merged url0 u0 2 [] (by decide) (by decide) (by decide)
     (by decide) (by decide) (by decide) (by decide)⟩

/-- Claim C4: on a not-already-merged PR with enough approvals and no recorded
failed check, exactly one merge PUT is issued, its body is the fixed
commit-title/commit-message JSON, and the merge response fields land in the
written output record. -/
theorem C4_merge_flow (env : Env) (w : World) (pr_url : String) (u : UrlInfo)
    (req : Int)
    (hu : get_pr_url_info pr_url = .ok u)
    (h1 : is_success_status w.pr_status = true)
    (h2 : is_success_status w.reviews_status = true)
    (hreq : python_int (get_env_var_value env.pr_merge_approval_count "2") = .ok req)
    (h3 : is_success_status w.checks_status = true)
    (hloop : checks_loop w.checks_body
        (get_env_var_value env.pr_merge_status_labels "").data = .ok [])
    (hmerged : w.pr_body.merged = false)
    (hge : ¬ (((w.reviews_body.filter (fun r => r.state == "APPROVED")).length : Int) < req))
    (hm : is_success_status w.merge_status = true) :
    process_pr env w pr_url
      = (.ok { org := u.org, repo := u.repo, pr_number := u.pr_number,
               pr_api_url := u.pr_api_url, pr_repo_url := u.pr_repo_url,
               source_branch := w.pr_body.head_ref, target_branch := w.pr_body.base_ref,
               already_merged := false,
               approvals := (w.reviews_body.filter (fun r => r.state == "APPROVED")).length,
               required_approvals := req, failed_checks := [],
               merge_fields := w.merge_body },
         [.get u.pr_api_url, .get (u.pr_api_url ++ "/reviews"),
          .get w.pr_body.statuses_url,
          .put (u.pr_api_url ++ "/merge") merge_request_data])
    ∧ ((process_pr env w pr_url).2.filter Request.isPut)
        = [.put (u.pr_api_url ++ "/merge") merge_request_data]
    ∧ merge_request_data
        = "\x7b\"commit_title\": \"PR merged by PR Utility (Jenkins)\", \"commit_message\": \"PR merged by PR Utility (Jenkins) with required checks\"\x7d"
    ∧ output_files env w pr_url
        = [("git_merge_ouput.json",
            { org := u.org, repo := u.repo, pr_number := u.pr_number,
              pr_api_url := u.pr_api_url, pr_repo_url := u.pr_repo_url,
              source_branch := w.pr_body.head_ref, target_branch := w.pr_body.base_ref,
              already_merged := false,
              approvals := (w.reviews_body.filter (fun r => r.state == "APPROVED")).length,
              required_approvals := req, failed_checks := [],
              merge_fields := w.merge_body })] := by
  have hmain := get_pr_info_ok env w pr_url u req [] hu h1 h2 hreq h3 hloop
  have hp : process_pr env w pr_url
      = (.ok { org := u.org, repo := u.repo, pr_number := u.pr_number,
               pr_api_url := u.pr_api_url, pr_repo_url := u.pr_repo_url,
               source_branch := w.pr_body.head_ref, target_branch := w.pr_body.base_ref,
               already_merged := false,
               approvals := (w.reviews_body.filter (fun r => r.state == "APPROVED")).length,
               required_approvals := req, failed_checks := [],
               merge_fields := w.merge_body },
         [.get u.pr_api_url, .get (u.pr_api_url ++ "/reviews"),
          .get w.pr_body.statuses_url,
          .put (u.pr_api_url ++ "/merge") merge_request_data]) := by
    unfold process_pr
    rw [hmain]
    simp only [hmerged, Bool.not_false, if_true]
    rw [if_neg hge]
    simp only [List.length_nil, gt_iff_lt, Nat.lt_irrefl, if_false]
    unfold merge get_reponse_json
    simp only [hm, if_true]
    rfl
  refine ⟨hp, by rw [hp]; rfl, rfl, ?_⟩
  unfold output_files
  rw [hp]

theorem C4_witness :
    get_pr_url_info url0 = .ok u0 ∧
    w0.pr_body.merged = false ∧
    (¬ (((w0.reviews_body.filter (fun r => r.state == "APPROVED")).length : Int) < 2)) ∧
    is_success_status w0.merge_status = true ∧
    (process_pr env0 w0 url0
      = (.ok { org := u0.org, repo := u0.repo, pr_number := u0.pr_number,
               pr_api_url := u0.pr_api_url, pr_repo_url := u0.pr_repo_url,
               source_branch := w0.pr_body.head_ref,
               target_branch := w0.pr_body.base_ref,
               already_merged := false,
               approvals := (w0.reviews_body.filter
                 (fun r => r.state == "APPROVED")).length,
               required_approvals := 2, failed_checks := [],
               merge_fields := w0.merge_body },
         [.get u0.pr_api_url, .get (u0.pr_api_url ++ "/reviews"),
          .get w0.pr_body.statuses_url,
          .put (u0.pr_api_url ++ "/merge") merge_request_data])
     ∧ ((process_pr env0 w0 url0).2.filter Request.isPut)
        = [.put (u0.pr_api_url ++ "/merge") merge_request_data]
     ∧ merge_request_data
        = "\x7b\"commit_title\": \"PR merged by PR Utility (Jenkins)\", \"commit_message\": \"PR merged by PR Utility (Jenkins) with required checks\"\x7d"
     ∧ output_files env0 w0 url0
        = [("git_merge_ouput.json",
            { org := u0.org, repo := u0.repo, pr_number := u0.pr_number,
              pr_api_url := u0.pr_api_url, pr_repo_url := u0.pr_repo_url,
              source_branch := w0.pr_body.head_ref,
              target_branch := w0.pr_body.base_ref,
              already_merged := false,
              approvals := (w0.reviews_body.filter
                (fun r => r.state == "APPROVED")).length,
              required_approvals := 2, failed_checks := [],
              merge_fields := w0.merge_body })]) :=
  ⟨by decide, by decide, by decide, by decide,
   C4_merge_flow env0 w0 url0 u0 2 (by decide) (by decide) (by decide) (by decide)
     (by decide) (by decide) (by decide) (by decide) (by decide)⟩

/-- Claim C5: any GET or PUT whose status code is outside 200-204 raises the
API error carrying the URL, status code and raw body, and the output file is
not written; in general an erroring run writes no output file. -/
theorem C5_api_error_aborts (env : Env) (pr_url : String) (u : UrlInfo)
    (hu : get_pr_url_info pr_url = .ok u)
    (w1 : World) (hb1 : is_success_status w1.pr_status = false)
    (w2 : World) (h2a : is_success_status w2.pr_status = true)
    (hb2 : is_success_status w2.reviews_status = false)
    (w3 : World) (h3a : is_success_status w3.pr_status = true)
    (h3b : is_success_status w3.reviews_status = true)
    (req3 : Int)
    (hreq3 : python_int (get_env_var_value env.pr_merge_approval_count "2") = .ok req3)
    (hb3 : is_success_status w3.checks_status = false)
    (w4 : World) (h4a : is_success_status w4.pr_status = true)
    (h4b : is_success_status w4.reviews_status = true)
    (h4c : is_success_status w4.checks_status = true)
    (hloop4 : checks_loop w4.checks_body
        (get_env_var_value env.pr_merge_status_labels "").data = .ok [])
    (hmerged4 : w4.pr_body.merged = false)
    (hge4 : ¬ (((w4.reviews_body.filter (fun r => r.state == "APPROVED")).length : Int) < req3))
    (hb4 : is_success_status w4.merge_status = false)
    (env' : Env) (w' : World) (url' : String) (e : PyErr)
    (he : (process_pr env' w' url').1 = .error e) :
    (process_pr env w1 pr_url
        = (.error (.apiError u.pr_api_url "" w1.pr_status w1.pr_content),
           [.get u.pr_api_url])
      ∧ output_files env w1 pr_url = [])
    ∧ (process_pr env w2 pr_url
        = (.error (.apiError (u.pr_api_url ++ "/reviews") "" w2.reviews_status
             w2.reviews_content),
           [.get u.pr_api_url, .get (u.pr_api_url ++ "/reviews")])
      ∧ output_files env w2 pr_url = [])
    ∧ (process_pr env w3 pr_url
        = (.error (.apiError w3.pr_body.statuses_url "" w3.checks_status
             w3.checks_content),
           [.get u.pr_api_url, .get (u.pr_api_url ++ "/reviews"),
            .get w3.pr_body.statuses_url])
      ∧ output_files env w3 pr_url = [])
    ∧ (process_pr env w4 pr_url
        = (.error (.apiError (u.pr_api_url ++ "/merge") merge_request_data
             w4.merge_status w4.merge_content),
           [.get u.pr_api_url, .get (u.pr_api_url ++ "/reviews"),
            .get w4.pr_body.statuses_url,
            .put (u.pr_api_url ++ "/merge") merge_request_data])
      ∧ output_files env w4 pr_url = [])
    ∧ output_files env' w' url' = [] := by
  have hp1 : process_pr env w1 pr_url
      = (.error (.apiError u.pr_api_url "" w1.pr_status w1.pr_content),
         [.get u.pr_api_url]) := by
    unfold process_pr get_pr_info get_reponse_json
    rw [hu]
    simp [hb1, pyContent_eq]
  have hp2 : process_pr env w2 pr_url
      = (.error (.apiError (u.pr_api_url ++ "/reviews") "" w2.reviews_status
           w2.reviews_content),
         [.get u.pr_api_url, .get (u.pr_api_url ++ "/reviews")]) := by
    unfold process_pr get_pr_info get_approval_info get_reponse_json
    rw [hu]
    simp [h2a, hb2, pyContent_eq]
  have hp3 : process_pr env w3 pr_url
      = (.error (.apiError w3.pr_body.statuses_url "" w3.checks_status
           w3.checks_content),
         [.get u.pr_api_url, .get (u.pr_api_url ++ "/reviews"),
          .get w3.pr_body.statuses_url]) := by
    unfold process_pr get_pr_info get_approval_info get_checks_info get_reponse_json
    rw [hu]
    simp [h3a, h3b, hreq3, hb3, pyContent_eq]
  have hp4 : process_pr env w4 pr_url
      = (.error (.apiError (u.pr_api_url ++ "/merge") merge_request_data
           w4.merge_status w4.merge_content),
         [.get u.pr_api_url, .get (u.pr_api_url ++ "/reviews"),
          .get w4.pr_body.statuses_url,
          .put (u.pr_api_url ++ "/merge") merge_request_data]) := by
    have hmain := get_pr_info_ok env w4 pr_url u req3 [] hu h4a h4b hreq3 h4c hloop4
    unfold process_pr
    rw [hmain]
    simp only [hmerged4, Bool.not_false, if_true]
    rw [if_neg hge4]
    simp only [List.length_nil, gt_iff_lt, Nat.lt_irrefl, if_false]
    unfold merge get_reponse_json
    simp only [hb4, Bool.false_eq_true, if_false]
    simp [pyContent_eq]
  have hout : ∀ (en : Env) (ww : World) (uu : String) (er : PyErr) (tr : List Request),
      process_pr en ww uu = (.error er, tr) → output_files en ww uu = [] := by
    intro en ww uu er tr hpp
    unfold output_files
    rw [hpp]
  refine ⟨⟨hp1, hout _ _ _ _ _ hp1⟩, ⟨hp2, hout _ _ _ _ _ hp2⟩,
          ⟨hp3, hout _ _ _ _ _ hp3⟩, ⟨hp4, hout _ _ _ _ _ hp4⟩, ?_⟩
  unfold output_files
  rcases hpp : process_pr env' w' url' with ⟨r, t⟩
  rw [hpp] at he
  have hr : r = .error e := he
  subst hr
  rfl

theorem C5_witness :
    get_pr_url_info url0 = .ok u0 ∧
    is_success_status w_bad1.pr_status = false ∧
    is_success_status w_bad2.reviews_status = false ∧
    is_success_status w_bad3.checks_status = false ∧
    is_success_status w_bad4.merge_status = false ∧
    (process_pr env0 w_bad1 url0).1 = .error (.apiError api0 "" 404 "nf") ∧
    ((process_pr env0 w_bad1 url0
        = (.error (.apiError u0.pr_api_url "" w_bad1.pr_status w_bad1.pr_content),
           [.get u0.pr_api_url])
      ∧ output_files env0 w_bad1 url0 = [])
    ∧ (process_pr env0 w_bad2 url0
        = (.error (.apiError (u0.pr_api_url ++ "/reviews") "" w_bad2.reviews_status
             w_bad2.reviews_content),
           [.get u0.pr_api_url, .get (u0.pr_api_url ++ "/reviews")])
      ∧ output_files env0 w_bad2 url0 = [])
    ∧ (process_pr env0 w_bad3 url0
        = (.error (.apiError w_bad3.pr_body.statuses_url "" w_bad3.checks_status
             w_bad3.checks_content),
           [.get u0.pr_api_url, .get (u0.pr_api_url ++ "/reviews"),
            .get w_bad3.pr_body.statuses_url])
      ∧ output_files env0 w_bad3 url0 = [])
    ∧ (process_pr env0 w_bad4 url0
        = (.error (.apiError (u0.pr_api_url ++ "/merge") merge_request_data
             w_bad4.merge_status w_bad4.merge_content),
           [.get u0.pr_api_url, .get (u0.pr_api_url ++ "/reviews"),
            .get w_bad4.pr_body.statuses_url,
            .put (u0.pr_api_url ++ "/merge") merge_request_data])
      ∧ output_files env0 w_bad4 url0 = [])
    ∧ output_files env0 w_bad1 url0 = []) :=
  ⟨by decide, by decide, by decide, by decide, by decide, by decide,
   C5_api_error_aborts env0 url0 u0 (by decide)
     w_bad1 (by decide)
     w_bad2 (by decide) (by decide)
     w_bad3 (by decide) (by decide) 2 (by decide) (by decide)
     w_bad4 (by decide) (by decide) (by decide) (by decide) (by decide) (by decide)
       (by decide)
     env0 w_bad1 url0 (.apiError api0 "" 404 "nf") (by decide)⟩

/-- Claim C6: a URL whose path yields fewer than 4 segments after stripping
leading/trailing slashes and splitting on `/` fails with the invalid-input
error, and the run performs no network access. -/
theorem C6_short_path_rejected (pr_url : String) (env : Env) (w : World)
    (h : (prPathSegments pr_url).length < 4) :
    get_pr_url_info pr_url = .error (.invalidInput pr_url) ∧
    process_pr env w pr_url = (.error (.invalidInput pr_url), []) := by
  have hp : get_pr_url_info pr_url = .error (.invalidInput pr_url) := by
    unfold get_pr_url_info
    rw [if_pos h]
  refine ⟨hp, ?_⟩
  unfold process_pr get_pr_info
  rw [hp]

theorem C6_witness :
    (prPathSegments "https://github.com/org/repo").length < 4 ∧
    (get_pr_url_info "https://github.com/org/repo"
        = .error (.invalidInput "https://github.com/org/repo") ∧
     process_pr env0 w0 "https://github.com/org/repo"
        = (.error (.invalidInput "https://github.com/org/repo"), [])) :=
  ⟨by decide, C6_short_path_rejected "https://github.com/org/repo" env0 w0 (by decide)⟩

/-- Claim C7: a well-formed URL `https://github.com/ORG/REPO/pull/N` parses to
organization ORG, repository REPO and number N, with the API URL
`https://api.github.com/repos/ORG/REPO/pulls/N` and the clone URL
`https://github.com/ORG/REPO.git`. -/
theorem C7_wellformed_url (org repo n : String)
    (ho : segOk org) (hr : segOk repo) (hn : segOk n) :
    get_pr_url_info ("https://github.com/" ++ org ++ "/" ++ repo ++ "/pull/" ++ n)
      = .ok { org := org, repo := repo, pr_number := n,
              pr_api_url := "https://api.github.com/repos/" ++ org ++ "/" ++ repo
                ++ "/pulls/" ++ n,
              pr_repo_url := "https://github.com/" ++ org ++ "/" ++ repo ++ ".git" } := by
  unfold get_pr_url_info
  rw [prPathSegments_pull org repo n ho hr hn]
  rw [if_neg (by norm_num)]

theorem C7_witness :
    segOk "kumvijaya" ∧ segOk "pr-merge-demo" ∧ segOk "1" ∧
    get_pr_url_info ("https://github.com/" ++ "kumvijaya" ++ "/" ++ "pr-merge-demo"
        ++ "/pull/" ++ "1")
      = .ok { org := "kumvijaya", repo := "pr-merge-demo", pr_number := "1",
              pr_api_url := "https://api.github.com/repos/" ++ "kumvijaya" ++ "/"
                ++ "pr-merge-demo" ++ "/pulls/" ++ "1",
              pr_repo_url := "https://github.com/" ++ "kumvijaya" ++ "/"
                ++ "pr-merge-demo" ++ ".git" } :=
  ⟨by decide, by decide, by decide,
   C7_wellformed_url "kumvijaya" "pr-merge-demo" "1" (by decide) (by decide) (by decide)⟩

/-- Claim C8: a required label with no exactly-matching check context is never
recorded as failed — the loop returns an empty failed-checks list when nothing
matches, and whenever it returns at all the failed-checks list is empty, so an
absent required check cannot by itself block the merge. -/
theorem C8_absent_check_passes (labels : String) (checks : List Check)
    (hno : ∀ c ∈ labels.data, ∀ ch ∈ checks, ch.context ≠ String.mk [c])
    (checks' : List Check) (ls : List Char) (r : List (List Check))
    (hok : checks_loop checks' ls = .ok r) :
    checks_loop checks labels.data = .ok [] ∧ r = [] :=
  ⟨checks_loop_no_match checks labels.data hno, checks_loop_ok_nil checks' ls r hok⟩

theorem C8_witness :
    (∀ c ∈ ("ci" : String).data, ∀ ch ∈ ([⟨"build", "success"⟩] : List Check),
        ch.context ≠ String.mk [c]) ∧
    (checks_loop ([⟨"build", "success"⟩] : List Check) ("ci" : String).data = .ok [] ∧
     ([] : List (List Check)) = []) :=
  ⟨by decide,
   C8_absent_check_passes "ci" [⟨"build", "success"⟩] (by decide) [] [] [] (by decide)⟩

/-- Claim C9: the required-checks configuration is consumed one character at a
time rather than as a delimited label list, and whenever some check context
equals one of those single characters, `get_checks_info` raises the
list-indexing `TypeError` instead of returning a checks-info record. -/
theorem C9_char_labels_type_error (env : Env) (w : World) (url : String)
    (labels : String) (c : Char) (hc : c ∈ labels.data)
    (ch : Check) (hch : ch ∈ w.checks_body) (hctx : ch.context = String.mk [c])
    (henv : env.pr_merge_status_labels = some labels)
    (hst : is_success_status w.checks_status = true) :
    get_checks_info env w url
      = (.error (.typeError "list indices must be integers or slices, not str"),
         [.get url])
    ∧ checks_loop [{ context := "ci", state := "failure" }] ("ci" : String).data = .ok []
    ∧ checks_loop [{ context := "c", state := "success" }] ("ci" : String).data
      = .error (.typeError "list indices must be integers or slices, not str") := by
  refine ⟨?_, by decide, by decide⟩
  unfold get_checks_info get_reponse_json
  simp only [hst, if_true, henv, get_env_var_value]
  rw [checks_loop_has_match w.checks_body labels.data c hc ch hch hctx]

theorem C9_witness :
    'c' ∈ ("ci" : String).data ∧
    (⟨"c", "success"⟩ : Check) ∈ w_c.checks_body ∧
    (⟨"c", "success"⟩ : Check).context = String.mk ['c'] ∧
    env_ci.pr_merge_status_labels = some "ci" ∧
    is_success_status w_c.checks_status = true ∧
    (get_checks_info env_ci w_c "u"
        = (.error (.typeError "list indices must be integers or slices, not str"),
           [.get "u"])
     ∧ checks_loop [{ context := "ci", state := "failure" }] ("ci" : String).data = .ok []
     ∧ checks_loop [{ context := "c", state := "success" }] ("ci" : String).data
        = .error (.typeError "list indices must be integers or slices, not str")) :=
  ⟨by decide, by decide, by decide, by decide, by decide,
   C9_char_labels_type_error env_ci w_c "u" "ci" 'c' (by decide) ⟨"c", "success"⟩
     (by decide) (by decide) (by decide) (by decide)⟩

/-- Claim C10: the parser accepts any URL whose path has at least 4 segments,
regardless of the third segment's content, uses only segments 0, 1 and 3,
emits fixed `github.com` / `api.github.com` hosts, and ignores the input
URL's host. -/
theorem C10_parser_laxity (pr_url : String) (s0 s1 s2 s3 : List Char)
    (rest : List (List Char))
    (hseg : prPathSegments pr_url = s0 :: s1 :: s2 :: s3 :: rest)
    (hs1 hs2 p : String)
    (hh1 : ∀ c ∈ hs1.data, netlocDelim c = false)
    (hh2 : ∀ c ∈ hs2.data, netlocDelim c = false) :
    get_pr_url_info pr_url
      = .ok { org := String.mk s0, repo := String.mk s1, pr_number := String.mk s3,
              pr_api_url := "https://api.github.com/repos/" ++ String.mk s0 ++ "/"
                ++ String.mk s1 ++ "/pulls/" ++ String.mk s3,
              pr_repo_url := "https://github.com/" ++ String.mk s0 ++ "/"
                ++ String.mk s1 ++ ".git" }
    ∧ prPathSegments ("https://" ++ hs1 ++ "/" ++ p)
        = prPathSegments ("https://" ++ hs2 ++ "/" ++ p) := by
  constructor
  · unfold get_pr_url_info
    rw [hseg]
    rw [if_neg (by simp)]
  · exact prPathSegments_host_eq hs1 hs2 p hh1 hh2

theorem C10_witness :
    prPathSegments "https://example.org/a/b/zzz/7"
        = [['a'], ['b'], ['z', 'z', 'z'], ['7']] ∧
    (∀ c ∈ ("github.com" : String).data, netlocDelim c = false) ∧
    (∀ c ∈ ("gitlab.example" : String).data, netlocDelim c = false) ∧
    (get_pr_url_info "https://example.org/a/b/zzz/7"
      = .ok { org := String.mk ['a'], repo := String.mk ['b'],
              pr_number := String.mk ['7'],
              pr_api_url := "https://api.github.com/repos/" ++ String.mk ['a'] ++ "/"
                ++ String.mk ['b'] ++ "/pulls/" ++ String.mk ['7'],
              pr_repo_url := "https://github.com/" ++ String.mk ['a'] ++ "/"
                ++ String.mk ['b'] ++ ".git" }
    ∧ prPathSegments ("https://" ++ "github.com" ++ "/" ++ "a/b/zzz/7")
        = prPathSegments ("https://" ++ "gitlab.example" ++ "/" ++ "a/b/zzz/7")) :=
  ⟨by decide, by decide, by decide,
   C10_parser_laxity "https://example.org/a/b/zzz/7" ['a'] ['b'] ['z', 'z', 'z'] ['7'] []
     (by decide) "github.com" "gitlab.example" "a/b/zzz/7" (by decide) (by decide)⟩

end GitMerger
